import Mathlib

/-
  Shallow embedding of `src/static/js/dashboard.js` (parking-system dashboard).

  Modelling conventions:
  * JS numbers are modelled as rationals (ℚ); every arithmetic operation the
    embedded code performs (affine transforms, bounds checks, decimal parsing)
    is exact on the inputs the claims mention, so ℚ is a faithful carrier.
  * JS strings are Lean `String`s. `String.prototype.trim`, `toLowerCase` and
    `includes` are embedded as executable functions over the character list
    (`jsTrim`, `jsToLower`, `strIncludes`); the gazetteer and all inputs in the
    claims are ASCII, where these agree with the JS semantics.
  * The object literal `locationDatabase` is embedded as an association list in
    insertion order (the iteration order of `Object.entries` for its
    non-numeric string keys); property access `locationDatabase[k]` is
    first-match association lookup.
  * `Math.random()` draws are passed in explicitly as arguments `r1 r2 ∈ [0,1)`.
  * Timers (`setInterval`/`clearInterval`) are modelled by an allocator state:
    ids start at 1 (setInterval ids are positive, hence truthy in the
    `if (updateInterval)` guard of `stopRealTimeUpdates`).
  * The DOM touched by the refresh units is abstracted to one panel state per
    container plus the last-updated flag; a unit's fetch+render outcome is a
    Bool (success / any thrown failure).  A thrown JS exception is an
    `Except.error`; `try { } catch { }` is `tryCatchE`.
-/

/-- Embeds `Char`-wise JS `toLowerCase` (ASCII range, which covers the
gazetteer and all claim inputs). -/
def jsToLower (s : String) : String := ⟨s.data.map Char.toLower⟩

/-- Both-ends whitespace trimming on the character list,
embedding `String.prototype.trim`. -/
def trimChars (l : List Char) : List Char :=
  ((l.dropWhile Char.isWhitespace).reverse.dropWhile Char.isWhitespace).reverse

/-- Embeds JS `String.prototype.trim`. -/
def jsTrim (s : String) : String := ⟨trimChars s.data⟩

/-- Prefix test on character lists (needle, haystack). -/
def hasPrefixCh : List Char → List Char → Bool
  | [], _ => true
  | _ :: _, [] => false
  | a :: as, b :: bs => a == b && hasPrefixCh as bs

/-- Substring test on character lists (needle, haystack). -/
def containsSub (needle : List Char) : List Char → Bool
  | [] => needle.isEmpty
  | c :: cs => hasPrefixCh needle (c :: cs) || containsSub needle cs

/-- Embeds JS `hay.includes(needle)`. -/
def strIncludes (hay needle : String) : Bool := containsSub needle.data hay.data

/-- One gazetteer entry: `{ lat, lng, type }` in the `locationDatabase`
object literal (dashboard.js lines 11-41). -/
structure LocEntry where
  lat : ℚ
  lng : ℚ
  type : String
deriving DecidableEq

/-- The `locationDatabase` object literal (dashboard.js lines 11-41), in
insertion order, which is the iteration order of `Object.entries`. -/
def locationDatabase : List (String × LocEntry) :=
  [("downtown plaza", ⟨3, 3, "business"⟩),
   ("shopping mall", ⟨8, 7, "shopping"⟩),
   ("train station", ⟨12, 2, "transit"⟩),
   ("office complex", ⟨6, 11, "business"⟩),
   ("city park", ⟨15, 8, "leisure"⟩),
   ("downtown", ⟨3, 3, "business"⟩),
   ("mall", ⟨8, 7, "shopping"⟩),
   ("station", ⟨12, 2, "transit"⟩),
   ("office", ⟨6, 11, "business"⟩),
   ("park", ⟨15, 8, "leisure"⟩),
   ("city center", ⟨10, 5, "business"⟩),
   ("main street", ⟨5, 5, "business"⟩),
   ("business district", ⟨4, 4, "business"⟩),
   ("shopping district", ⟨7, 6, "shopping"⟩),
   ("university area", ⟨9, 9, "education"⟩),
   ("hospital district", ⟨11, 12, "healthcare"⟩),
   ("residential area", ⟨2, 13, "residential"⟩),
   ("central", ⟨10, 15/2, "business"⟩),
   ("north", ⟨10, 12, "residential"⟩),
   ("south", ⟨10, 3, "business"⟩),
   ("east", ⟨15, 15/2, "mixed"⟩),
   ("west", ⟨5, 15/2, "mixed"⟩)]

/-- Property access `locationDatabase[key]` on the literal. -/
def lookupDb (key : String) : Option LocEntry :=
  (locationDatabase.find? fun p => p.1 == key).map Prod.snd

/-- Whether a gazetteer key qualifies as a partial match for the normalized
input: `key.includes(normalizedText) || normalizedText.includes(key)`
(dashboard.js line 585). -/
def qualifiesKey (normalizedText key : String) : Bool :=
  strIncludes key normalizedText || strIncludes normalizedText key

/-- Value of a digit run (most significant first). -/
def digitsVal (l : List Char) : Nat :=
  l.foldl (fun a c => 10 * a + (c.toNat - 48)) 0

/-- Embeds `parseFloat` on the strings matched by the coordinate pattern
`\d+\.?\d*` (an integer part, optionally a dot and a fraction part). -/
def parseFloatQ (s : String) : ℚ :=
  let ds := s.data.takeWhile Char.isDigit
  match s.data.dropWhile Char.isDigit with
  | '.' :: fs => (digitsVal ds : ℚ) + (digitsVal fs : ℚ) / (10 : ℚ) ^ fs.length
  | _ => (digitsVal ds : ℚ)

/-- Matcher for one number `\d+\.?\d*` anchored at the start of the list;
returns the matched characters and the remainder.  Greedy with no observable
backtracking: after the maximal digit run, an optional dot, then the maximal
digit run. -/
def matchNumAt (cs : List Char) : Option (List Char × List Char) :=
  let d1 := cs.takeWhile Char.isDigit
  let r1 := cs.dropWhile Char.isDigit
  if d1.isEmpty then none
  else
    match r1 with
    | '.' :: r2 => some (d1 ++ '.' :: r2.takeWhile Char.isDigit, r2.dropWhile Char.isDigit)
    | _ => some (d1, r1)

/-- Matcher for the whole pattern `(\d+\.?\d*),\s*(\d+\.?\d*)` anchored at the
start of the list; returns the two captured groups.  For this pattern a
backtracking engine succeeds at a position exactly when this greedy matcher
does: shrinking `\d+`/`\d*` or dropping `\.?` always leaves a digit or a dot
where `,` is required. -/
def tryCoordAt (cs : List Char) : Option (String × String) :=
  match matchNumAt cs with
  | none => none
  | some (g1, r1) =>
    match r1 with
    | ',' :: r2 =>
      match matchNumAt (r2.dropWhile Char.isWhitespace) with
      | none => none
      | some (g2, _) => some (⟨g1⟩, ⟨g2⟩)
    | _ => none

/-- Unanchored search of `locationText.match(/(\d+\.?\d*),\s*(\d+\.?\d*)/)`
(dashboard.js line 601): the pattern is attempted at each index from the left
and the first success wins. -/
def findCoord : List Char → Option (String × String)
  | [] => none
  | c :: cs =>
    match tryCoordAt (c :: cs) with
    | some r => some r
    | none => findCoord cs

/-- Result object of `parseLocationInput`.  `confidence` keeps the source's
string tags (`"exact"`, `"partial"`, `"coordinates"`, `"estimated"`);
`matchKey` is the source's `match` field (present only on partial matches;
`match` is reserved in Lean). -/
structure ResolvedLocation where
  lat : ℚ
  lng : ℚ
  name : String
  type : String
  confidence : String
  matchKey : Option String
deriving DecidableEq

/-- Embeds `parseLocationInput` (dashboard.js lines 566-626).  The two
`Math.random()` draws of the estimated fallback are the explicit arguments
`r1 r2`. -/
def parseLocationInput (locationText : String) (r1 r2 : ℚ) : Option ResolvedLocation :=
  if jsTrim locationText = "" then none
  else
    let normalizedText := jsTrim (jsToLower locationText)
    match lookupDb normalizedText with
    | some entry =>
      some ⟨entry.lat, entry.lng, jsTrim locationText, entry.type, "exact", none⟩
    | none =>
      match (locationDatabase.filter fun p => qualifiesKey normalizedText p.1).head? with
      | some (key, data) =>
        some ⟨data.lat, data.lng, key, data.type, "partial", some key⟩
      | none =>
        match findCoord locationText.data with
        | some (s1, s2) =>
          let latV := parseFloatQ s1
          let lngV := parseFloatQ s2
          if 0 ≤ latV ∧ latV ≤ 20 ∧ 0 ≤ lngV ∧ lngV ≤ 15 then
            some ⟨latV, lngV, jsTrim locationText, "custom", "coordinates", none⟩
          else
            some ⟨r1 * 20, r2 * 15, jsTrim locationText, "unknown", "estimated", none⟩
        | none =>
          some ⟨r1 * 20, r2 * 15, jsTrim locationText, "unknown", "estimated", none⟩

/-- The process-wide `userLocation` singleton `{ lat, lng, name }`. -/
structure UserLocation where
  lat : ℚ
  lng : ℚ
  name : String
deriving DecidableEq

/-- Initial `userLocation` (dashboard.js line 8). -/
def defaultUserLocation : UserLocation := ⟨3, 3, "Downtown Plaza"⟩

/-- Embeds the `userLocation`-relevant part of `updateUserLocation`
(dashboard.js lines 629-653): trim the input field's value, bail out (state
unchanged) on empty text or a null parse, otherwise replace the singleton
wholesale.  Notifications and the dependent-refresh calls are presentation
and are not part of the state. -/
def updateUserLocation (inputValue : String) (r1 r2 : ℚ) (loc : UserLocation) : UserLocation :=
  let locationText := jsTrim inputValue
  if locationText = "" then loc
  else
    match parseLocationInput locationText r1 r2 with
    | none => loc
    | some p => ⟨p.lat, p.lng, p.name⟩

/-- Orchestrator timer state: `updateInterval` is the variable of
dashboard.js line 7; `activeTimers` are the interval ids armed by
`setInterval` and not yet cleared (an id overwritten in `updateInterval`
without `clearInterval` keeps ticking); `nextTimerId` is the platform's id
allocator, starting at 1 (ids are truthy). -/
structure OrchestratorState where
  activeTimers : List Nat
  updateInterval : Option Nat
  nextTimerId : Nat
deriving DecidableEq

/-- State before any timer is armed. -/
def initialOrchestratorState : OrchestratorState := ⟨[], none, 1⟩

/-- Embeds `startRealTimeUpdates` (dashboard.js lines 103-106):
`updateInterval = setInterval(refreshData, 3000)` with no already-running
check. -/
def startRealTimeUpdates (s : OrchestratorState) : OrchestratorState :=
  { activeTimers := s.activeTimers ++ [s.nextTimerId]
    updateInterval := some s.nextTimerId
    nextTimerId := s.nextTimerId + 1 }

/-- Embeds `stopRealTimeUpdates` (dashboard.js lines 108-113):
`if (updateInterval) { clearInterval(updateInterval); updateInterval = null }`. -/
def stopRealTimeUpdates (s : OrchestratorState) : OrchestratorState :=
  match s.updateInterval with
  | some id =>
    { activeTimers := s.activeTimers.erase id
      updateInterval := none
      nextTimerId := s.nextTimerId }
  | none => s

/-- Rendered state of one dashboard container. -/
inductive PanelContent
  | initial
  | rendered
  | errorShown
deriving DecidableEq

/-- The DOM state the refresh units touch: one panel per unit plus the shared
`last-updated` flag (true when the timestamp was written this cycle). -/
structure DomState where
  systemStatsPanel : PanelContent
  parkingLotsPanel : PanelContent
  recommendationsPanel : PanelContent
  junctionsPanel : PanelContent
  predictionsPanel : PanelContent
  mapPanel : PanelContent
  lastUpdated : Bool
deriving DecidableEq

/-- DOM before the first refresh. -/
def initialDomState : DomState :=
  ⟨.initial, .initial, .initial, .initial, .initial, .initial, false⟩

/-- Embeds JS `try { body } catch (e) { handler }` where the handler never
rethrows: the result is always a normal return. -/
def tryCatchE (body : Except String DomState) (handler : String → DomState) :
    Except String DomState :=
  match body with
  | .ok d => .ok d
  | .error e => .ok (handler e)

/-- Success/failure of each unit's fetch+parse+render this cycle (a `false`
stands for any thrown error: network failure or a non-ok response). -/
structure CycleOutcomes where
  systemStats : Bool
  parkingLots : Bool
  recommendations : Bool
  junctions : Bool
  predictions : Bool
  mapData : Bool
deriving DecidableEq

/-- Embeds `updateSystemStats` (dashboard.js lines 138-185): body renders the
stats or throws; the catch only logs (DOM untouched). -/
def updateSystemStats (ok : Bool) (d : DomState) : Except String DomState :=
  tryCatchE
    (if ok then .ok { d with systemStatsPanel := .rendered }
     else .error "Failed to fetch system stats")
    (fun _ => d)

/-- Embeds `updateParkingLots` (dashboard.js lines 187-238): the catch writes
an error div into the container. -/
def updateParkingLots (ok : Bool) (d : DomState) : Except String DomState :=
  tryCatchE
    (if ok then .ok { d with parkingLotsPanel := .rendered }
     else .error "Failed to fetch parking status")
    (fun _ => { d with parkingLotsPanel := .errorShown })

/-- Embeds `updateRecommendations` (dashboard.js lines 240-314): the catch
writes an error div into the container. -/
def updateRecommendations (ok : Bool) (d : DomState) : Except String DomState :=
  tryCatchE
    (if ok then .ok { d with recommendationsPanel := .rendered }
     else .error "Failed to fetch recommendations")
    (fun _ => { d with recommendationsPanel := .errorShown })

/-- Embeds `updateJunctions` (dashboard.js lines 316-361): the catch writes an
error div into the container. -/
def updateJunctions (ok : Bool) (d : DomState) : Except String DomState :=
  tryCatchE
    (if ok then .ok { d with junctionsPanel := .rendered }
     else .error "Failed to fetch junction status")
    (fun _ => { d with junctionsPanel := .errorShown })

/-- Embeds `updatePredictions` (dashboard.js lines 363-398): the catch only
logs (chart untouched). -/
def updatePredictions (ok : Bool) (d : DomState) : Except String DomState :=
  tryCatchE
    (if ok then .ok { d with predictionsPanel := .rendered }
     else .error "Failed to fetch predictions")
    (fun _ => d)

/-- Embeds `updateMap` (dashboard.js lines 400-415): the catch writes an error
div into the container. -/
def updateMap (ok : Bool) (d : DomState) : Except String DomState :=
  tryCatchE
    (if ok then .ok { d with mapPanel := .rendered }
     else .error "Failed to fetch map data")
    (fun _ => { d with mapPanel := .errorShown })

/-- Body of `refreshData`'s `try` block (dashboard.js lines 115-131):
`await Promise.all([...])` over the six units, then write the timestamp.
The units run on one execution context and touch disjoint DOM fields, so the
fan-out is embedded as sequential threading; a rejected unit promise is an
`Except.error` escaping past the timestamp write. -/
def refreshBody (o : CycleOutcomes) (d : DomState) : Except String DomState := do
  let d1 ← updateSystemStats o.systemStats d
  let d2 ← updateParkingLots o.parkingLots d1
  let d3 ← updateRecommendations o.recommendations d2
  let d4 ← updateJunctions o.junctions d3
  let d5 ← updatePredictions o.predictions d4
  let d6 ← updateMap o.mapData d5
  return { d6 with lastUpdated := true }

/-- Embeds `refreshData` (dashboard.js lines 115-136): the outer catch is the
aggregate backstop (user notification, no timestamp write). -/
def refreshData (o : CycleOutcomes) (d : DomState) : DomState :=
  match refreshBody o d with
  | .ok d' => d'
  | .error _ => d

/-- Embeds the GPS-to-local conversion of `useCurrentLocation`
(dashboard.js lines 715-720): the fixed affine transform followed by
`Math.max(0, Math.min(bound, ·))` clamping. -/
def toLocalSpace (gpsLat gpsLng : ℚ) : ℚ × ℚ :=
  (max 0 (min 20 ((gpsLat - 40) * 20 + 10)),
   max 0 (min 15 ((gpsLng + 74) * 15 + 7.5)))

/-- Clamp as the spec writes it: `clamp(x, lo, hi)`. -/
def clampQ (x lo hi : ℚ) : ℚ := max lo (min hi x)

/-- Squared Euclidean distance from an entry to a query point.  The source
compares `Math.sqrt` of this value (dashboard.js line 775); square root is
strictly monotone on nonnegatives, so the `<` comparisons of the scan are
unchanged by comparing the squares. -/
def distSq (e : LocEntry) (lat lng : ℚ) : ℚ :=
  (e.lat - lat) ^ 2 + (e.lng - lng) ^ 2

/-- One iteration of the `findNearestLocation` loop: keep the incumbent unless
the new entry is strictly closer (`distance < minDistance`, dashboard.js
line 776); `none` is the initial `minDistance = Infinity` incumbent, which any
entry beats. -/
def scanStep (lat lng : ℚ) (acc : Option ((String × LocEntry) × ℚ))
    (p : String × LocEntry) : Option ((String × LocEntry) × ℚ) :=
  match acc with
  | none => some (p, distSq p.2 lat lng)
  | some (b, bd) =>
    if distSq p.2 lat lng < bd then some (p, distSq p.2 lat lng) else some (b, bd)

/-- The linear scan of `findNearestLocation` over a gazetteer. -/
def nearestScan (lat lng : ℚ) (db : List (String × LocEntry)) :
    Option ((String × LocEntry) × ℚ) :=
  db.foldl (scanStep lat lng) none

/-- Result of `findNearestLocation`: `{ name, ...data }`, or the synthetic
`{ name: "Custom Location", lat, lng }` (which has no `type` property) when
the scan found nothing. -/
structure NearestResult where
  name : String
  lat : ℚ
  lng : ℚ
  type : Option String
deriving DecidableEq

/-- Embeds `findNearestLocation` (dashboard.js lines 770-783), generalized
over the gazetteer it scans (the source closes over `locationDatabase`). -/
def findNearestLocation (db : List (String × LocEntry)) (lat lng : ℚ) : NearestResult :=
  match nearestScan lat lng db with
  | some ((k, e), _) => ⟨k, e.lat, e.lng, some e.type⟩
  | none => ⟨"Custom Location", lat, lng, none⟩

/-- Invariant of the nearest-neighbor scan after processing a prefix of the
gazetteer: the incumbent's recorded distance is its true distance, it is
strictly closer than everything before it and at least as close as everything
after it within the processed prefix. -/
def ScanInv (lat lng : ℚ) (processed : List (String × LocEntry)) :
    Option ((String × LocEntry) × ℚ) → Prop
  | none => processed = []
  | some (b, bd) =>
    bd = distSq b.2 lat lng ∧
    ∃ l1 l2, processed = l1 ++ b :: l2 ∧
      (∀ q ∈ l1, bd < distSq q.2 lat lng) ∧
      (∀ q ∈ l2, bd ≤ distSq q.2 lat lng)

/-- All gazetteer keys are nonempty. -/
theorem locationDatabase_keys_nonempty : ∀ p ∈ locationDatabase, p.1 ≠ "" := by decide

/-- The gazetteer keys are pairwise distinct. -/
theorem locationDatabase_keys_nodup : (locationDatabase.map Prod.fst).Nodup := by decide

/-- Association lookup on a key-distinct list finds the entry of any member key. -/
theorem find?_eq_of_mem_nodup (l : List (String × LocEntry)) (k : String) (e : LocEntry)
    (hnd : (l.map Prod.fst).Nodup) (hm : (k, e) ∈ l) :
    (l.find? fun p => p.1 == k) = some (k, e) := by
  induction l with
  | nil => cases hm
  | cons hd tl ih =>
    rw [List.map_cons, List.nodup_cons] at hnd
    rcases List.mem_cons.mp hm with h | h
    · subst h
      simp [List.find?]
    · have hk : hd.1 ≠ k := by
        intro heq
        exact hnd.1 (heq ▸ (List.mem_map_of_mem Prod.fst h : (k, e).1 ∈ tl.map Prod.fst))
      have hbeq : (hd.1 == k) = false := by
        simp [hk]
      rw [List.find?]
      rw [hbeq]
      exact ih hnd.2 h

/-- `locationDatabase[k]` yields the entry of any member key. -/
theorem lookupDb_eq_of_mem (k : String) (e : LocEntry) (hm : (k, e) ∈ locationDatabase) :
    lookupDb k = some e := by
  unfold lookupDb
  rw [find?_eq_of_mem_nodup locationDatabase k e locationDatabase_keys_nodup hm]
  rfl

/-- Lowercasing fixes whitespace characters. -/
theorem toLower_of_isWhitespace (c : Char) (h : c.isWhitespace = true) : c.toLower = c := by
  simp only [Char.isWhitespace, Bool.or_eq_true, decide_eq_true_eq] at h
  rcases h with ((h | h) | h) | h <;> subst h <;> decide

/-- If trimming empties a character list, every character was whitespace. -/
theorem all_ws_of_trimChars_nil (l : List Char) (h : trimChars l = []) :
    ∀ c ∈ l, c.isWhitespace = true := by
  unfold trimChars at h
  rw [List.reverse_eq_nil_iff, List.dropWhile_eq_nil_iff] at h
  intro c hc
  rw [← List.takeWhile_append_dropWhile (p := Char.isWhitespace) (l := l)] at hc
  rcases List.mem_append.mp hc with h1 | h2
  · exact List.mem_takeWhile_imp h1
  · exact h c (List.mem_reverse.mpr h2)

/-- Whitespace-only input stays empty after the `toLowerCase().trim()`
normalization. -/
theorem jsTrim_toLower_of_trim_empty (s : String) (h : jsTrim s = "") :
    jsTrim (jsToLower s) = "" := by
  have hnil : trimChars s.data = [] := congrArg String.data h
  have hall := all_ws_of_trimChars_nil s.data hnil
  have hmap : s.data.map Char.toLower = s.data := by
    calc s.data.map Char.toLower
        = s.data.map id := List.map_congr_left fun c hc => toLower_of_isWhitespace c (hall c hc)
      _ = s.data := List.map_id s.data
  show (⟨trimChars (s.data.map Char.toLower)⟩ : String) = ""
  rw [hmap, hnil]

/-- Branch reduction: a hit in the exact-match stage. -/
theorem parse_eq_exact (s : String) (r1 r2 : ℚ) (e : LocEntry)
    (hg : jsTrim s ≠ "") (hl : lookupDb (jsTrim (jsToLower s)) = some e) :
    parseLocationInput s r1 r2 = some ⟨e.lat, e.lng, jsTrim s, e.type, "exact", none⟩ := by
  simp only [parseLocationInput]
  rw [if_neg hg]
  simp only [hl]

/-- Branch reduction: no exact hit and a first qualifying key in the
partial-match stage. -/
theorem parse_eq_partialStage (s : String) (r1 r2 : ℚ) (k : String) (e : LocEntry)
    (hg : jsTrim s ≠ "")
    (hl : lookupDb (jsTrim (jsToLower s)) = none)
    (hh : (locationDatabase.filter fun p =>
            qualifiesKey (jsTrim (jsToLower s)) p.1).head? = some (k, e)) :
    parseLocationInput s r1 r2 = some ⟨e.lat, e.lng, k, e.type, "partial", some k⟩ := by
  simp only [parseLocationInput]
  rw [if_neg hg]
  simp only [hl, hh]

/-- Branch reduction: past the exact and partial stages, the parser is the
coordinate-pattern/estimated tail. -/
theorem parse_eq_coordTail (s : String) (r1 r2 : ℚ)
    (hg : jsTrim s ≠ "")
    (hl : lookupDb (jsTrim (jsToLower s)) = none)
    (hh : (locationDatabase.filter fun p =>
            qualifiesKey (jsTrim (jsToLower s)) p.1).head? = none) :
    parseLocationInput s r1 r2 =
      match findCoord s.data with
      | some (s1, s2) =>
        if 0 ≤ parseFloatQ s1 ∧ parseFloatQ s1 ≤ 20 ∧
            0 ≤ parseFloatQ s2 ∧ parseFloatQ s2 ≤ 15 then
          some ⟨parseFloatQ s1, parseFloatQ s2, jsTrim s, "custom", "coordinates", none⟩
        else
          some ⟨r1 * 20, r2 * 15, jsTrim s, "unknown", "estimated", none⟩
      | none => some ⟨r1 * 20, r2 * 15, jsTrim s, "unknown", "estimated", none⟩ := by
  simp only [parseLocationInput]
  rw [if_neg hg]
  simp only [hl, hh]

/-- A non-empty (after trimming) input always parses to some result. -/
theorem parse_isSome (s : String) (r1 r2 : ℚ) (hg : jsTrim s ≠ "") :
    (parseLocationInput s r1 r2).isSome = true := by
  cases hl : lookupDb (jsTrim (jsToLower s)) with
  | some e => rw [parse_eq_exact s r1 r2 e hg hl]; rfl
  | none =>
    cases hh : (locationDatabase.filter fun p =>
        qualifiesKey (jsTrim (jsToLower s)) p.1).head? with
    | some p =>
      obtain ⟨k, e⟩ := p
      rw [parse_eq_partialStage s r1 r2 k e hg hl hh]; rfl
    | none =>
      rw [parse_eq_coordTail s r1 r2 hg hl hh]
      cases hc : findCoord s.data with
      | some pr =>
        obtain ⟨s1, s2⟩ := pr
        by_cases hb : 0 ≤ parseFloatQ s1 ∧ parseFloatQ s1 ≤ 20 ∧
            0 ≤ parseFloatQ s2 ∧ parseFloatQ s2 ≤ 15
        · simp [hb]
        · simp [hb]
      | none => rfl

/-- Empty (after trimming) input parses to null. -/
theorem parse_none_of_empty (s : String) (r1 r2 : ℚ) (hg : jsTrim s = "") :
    parseLocationInput s r1 r2 = none := by
  simp only [parseLocationInput, if_pos hg]

/-- C1 counterexample: from the loaded page (one armed timer), `stop()` then
`start()` twice in a row leaves two active repeating timers, not at most one:
the second `start()` overwrites `updateInterval` without clearing the timer it
held. -/
theorem startRealTimeUpdates_double_start_two_timers :
    ¬ ((startRealTimeUpdates (startRealTimeUpdates (stopRealTimeUpdates
        (startRealTimeUpdates initialOrchestratorState)))).activeTimers.length ≤ 1) := by
  decide

/-- C1 (amended): `startRealTimeUpdates` is not idempotent — every call arms a
fresh repeating timer unconditionally, even if one is already running (the
running timer's id is overwritten in `updateInterval` and the timer keeps
ticking untracked); in particular `stop()` then `start()` twice in a row
leaves exactly two active timers. -/
theorem startRealTimeUpdates_always_arms_new_timer :
    (∀ s : OrchestratorState,
      (startRealTimeUpdates s).activeTimers.length = s.activeTimers.length + 1) ∧
    (startRealTimeUpdates (startRealTimeUpdates (stopRealTimeUpdates
      (startRealTimeUpdates initialOrchestratorState)))).activeTimers.length = 2 :=
  ⟨fun s => by simp [startRealTimeUpdates], by decide⟩

/-- C7: `toLocalSpace` is exactly the clamped fixed affine transform
`localLat = clamp((gpsLat - 40)·20 + 10, 0, 20)`,
`localLng = clamp((gpsLng + 74)·15 + 7.5, 0, 15)` (a pure function, hence
deterministic), and GPS `(40, -74)` maps exactly to local `(10, 7.5)`. -/
theorem toLocalSpace_affine_clamp :
    (∀ gpsLat gpsLng : ℚ, toLocalSpace gpsLat gpsLng =
      (clampQ ((gpsLat - 40) * 20 + 10) 0 20, clampQ ((gpsLng + 74) * 15 + 7.5) 0 15)) ∧
    toLocalSpace 40 (-74) = (10, 7.5) :=
  ⟨fun _ _ => rfl, by norm_num [toLocalSpace, Prod.ext_iff]⟩

/-- C9 counterexample: the parser is not a pure function of the input text and
the gazetteer — on input `"zzz"` (no match, no coordinate pattern) two
evaluations with different `Math.random()` draws return different
ResolvedLocations. -/
theorem parseLocationInput_random_dependent :
    parseLocationInput "zzz" (1/2) (1/2) ≠ parseLocationInput "zzz" (1/4) (1/4) := by
  have h1 := parse_eq_coordTail "zzz" (1/2) (1/2) (by decide) (by decide) (by decide)
  have h2 := parse_eq_coordTail "zzz" (1/4) (1/4) (by decide) (by decide) (by decide)
  rw [show findCoord ("zzz" : String).data = none from by decide] at h1 h2
  rw [h1, h2]
  intro h
  rw [Option.some_inj] at h
  have hlat := congrArg ResolvedLocation.lat h
  norm_num at hlat

/-- C9 (amended): the parser is deterministic in the input text and gazetteer
up to the estimated fallback — the confidence tier reached never depends on
the random draws, and on every input that does not reach the `"estimated"`
tier the whole result is independent of the random draws. -/
theorem parseLocationInput_deterministic_unless_estimated :
    ∀ (s : String) (r1 r2 r1' r2' : ℚ),
      Option.map (fun p => p.confidence) (parseLocationInput s r1 r2) =
        Option.map (fun p => p.confidence) (parseLocationInput s r1' r2') ∧
      (Option.map (fun p => p.confidence) (parseLocationInput s r1 r2) ≠ some "estimated" →
        parseLocationInput s r1 r2 = parseLocationInput s r1' r2') := by
  intro s r1 r2 r1' r2'
  by_cases hg : jsTrim s = ""
  · rw [parse_none_of_empty s r1 r2 hg, parse_none_of_empty s r1' r2' hg]
    exact ⟨rfl, fun _ => rfl⟩
  · cases hl : lookupDb (jsTrim (jsToLower s)) with
    | some e =>
      rw [parse_eq_exact s r1 r2 e hg hl, parse_eq_exact s r1' r2' e hg hl]
      exact ⟨rfl, fun _ => rfl⟩
    | none =>
      cases hh : (locationDatabase.filter fun p =>
          qualifiesKey (jsTrim (jsToLower s)) p.1).head? with
      | some p =>
        obtain ⟨k, e⟩ := p
        rw [parse_eq_partialStage s r1 r2 k e hg hl hh, parse_eq_partialStage s r1' r2' k e hg hl hh]
        exact ⟨rfl, fun _ => rfl⟩
      | none =>
        rw [parse_eq_coordTail s r1 r2 hg hl hh, parse_eq_coordTail s r1' r2' hg hl hh]
        cases hc : findCoord s.data with
        | some pr =>
          obtain ⟨s1, s2⟩ := pr
          by_cases hb : 0 ≤ parseFloatQ s1 ∧ parseFloatQ s1 ≤ 20 ∧
              0 ≤ parseFloatQ s2 ∧ parseFloatQ s2 ≤ 15
          · simp only [hb, if_pos hb]
            exact ⟨rfl, fun _ => rfl⟩
          · simp only [if_neg hb]
            exact ⟨rfl, fun h => absurd rfl h⟩
        | none =>
          exact ⟨rfl, fun h => absurd rfl h⟩

/-- C9 amended witness: on `"mall"` (an exact match, so not estimated) the
result is independent of the random draws. -/
theorem parseLocationInput_deterministic_witness :
    Option.map (fun p => p.confidence) (parseLocationInput "mall" (1/2) (1/2)) ≠
        some "estimated" ∧
    parseLocationInput "mall" (1/2) (1/2) = parseLocationInput "mall" (1/4) (1/4) :=
  ⟨by decide,
   (parseLocationInput_deterministic_unless_estimated "mall" (1/2) (1/2) (1/4) (1/4)).2
     (by decide)⟩

/-- C10: the coordinate pattern has no sign, so a leading minus is skipped by
the unanchored search (prepending `-` never changes the extraction), and the
input `"-5, 5"` — matching no gazetteer key — parses to confidence
`coordinates` with lat = 5, lng = 5 (the digits after the minus sign) instead
of being rejected or estimated. -/
theorem parseLocationInput_negative_pair :
    (∀ cs : List Char, findCoord ('-' :: cs) = findCoord cs) ∧
    (∀ r1 r2 : ℚ, parseLocationInput "-5, 5" r1 r2 =
      some ⟨5, 5, "-5, 5", "custom", "coordinates", none⟩) := by
  constructor
  · intro cs
    rfl
  · intro r1 r2
    have h := parse_eq_coordTail "-5, 5" r1 r2 (by decide) (by decide) (by decide)
    rw [show findCoord ("-5, 5" : String).data = some ("5", "5") from by decide] at h
    rw [h]
    have h5 : parseFloatQ "5" = 5 := by decide
    have htr : jsTrim "-5, 5" = "-5, 5" := by decide
    show (if 0 ≤ parseFloatQ "5" ∧ parseFloatQ "5" ≤ 20 ∧
          0 ≤ parseFloatQ "5" ∧ parseFloatQ "5" ≤ 15 then
        some (⟨parseFloatQ "5", parseFloatQ "5", jsTrim "-5, 5", "custom",
          "coordinates", none⟩ : ResolvedLocation)
      else some ⟨r1 * 20, r2 * 15, jsTrim "-5, 5", "unknown", "estimated", none⟩) =
      some ⟨5, 5, "-5, 5", "custom", "coordinates", none⟩
    rw [h5, htr]
    norm_num

/-- C5: the parser fails exactly on empty/whitespace-only input (null — the
`EmptyInput` error — is its only failure), and a failed update attempt leaves
the shared `userLocation` singleton completely unchanged. -/
theorem parseLocationInput_empty_input :
    ∀ (s : String) (r1 r2 : ℚ) (loc : UserLocation),
      (parseLocationInput s r1 r2 = none ↔ jsTrim s = "") ∧
      (jsTrim s = "" → updateUserLocation s r1 r2 loc = loc) := by
  intro s r1 r2 loc
  constructor
  · constructor
    · intro h
      by_contra hg
      have hs := parse_isSome s r1 r2 hg
      rw [h] at hs
      cases hs
    · exact parse_none_of_empty s r1 r2
  · intro hg
    simp [updateUserLocation, hg]

/-- C5 witness: the whitespace-only input `"   "` fails and leaves the default
user location unchanged. -/
theorem parseLocationInput_empty_input_witness :
    jsTrim "   " = "" ∧ parseLocationInput "   " 0 0 = none ∧
    updateUserLocation "   " 0 0 defaultUserLocation = defaultUserLocation :=
  ⟨by decide,
   (parseLocationInput_empty_input "   " 0 0 defaultUserLocation).1.mpr (by decide),
   (parseLocationInput_empty_input "   " 0 0 defaultUserLocation).2 (by decide)⟩

/-- C3: any input whose `toLowerCase().trim()` normalization equals a
gazetteer key parses to confidence `exact` with that entry's coordinates and
category and `name` = the original trimmed input; the conclusion holds with no
assumption about partial matches, so the exact match takes precedence over any
partial match regardless of string length. -/
theorem parseLocationInput_exact_match :
    ∀ (s : String) (r1 r2 : ℚ) (k : String) (e : LocEntry),
      (k, e) ∈ locationDatabase →
      jsTrim (jsToLower s) = k →
      parseLocationInput s r1 r2 = some ⟨e.lat, e.lng, jsTrim s, e.type, "exact", none⟩ := by
  intro s r1 r2 k e hm hn
  have hg : jsTrim s ≠ "" := by
    intro hg
    have h0 := jsTrim_toLower_of_trim_empty s hg
    rw [hn] at h0
    exact locationDatabase_keys_nonempty (k, e) hm h0
  exact parse_eq_exact s r1 r2 e hg (by rw [hn]; exact lookupDb_eq_of_mem k e hm)

/-- C3 witness: `"  Downtown Plaza  "` (mixed case, surrounding whitespace)
resolves exactly to the `downtown plaza` entry. -/
theorem parseLocationInput_exact_match_witness :
    ("downtown plaza", (⟨3, 3, "business"⟩ : LocEntry)) ∈ locationDatabase ∧
    jsTrim (jsToLower "  Downtown Plaza  ") = "downtown plaza" ∧
    parseLocationInput "  Downtown Plaza  " 0 0 =
      some ⟨3, 3, "Downtown Plaza", "business", "exact", none⟩ :=
  ⟨by decide, by decide,
   parseLocationInput_exact_match "  Downtown Plaza  " 0 0 "downtown plaza"
     ⟨3, 3, "business"⟩ (by decide) (by decide)⟩

/-- C2: on input that survives the empty guard, equals no gazetteer key after
normalization, and for which some key qualifies (key contains the normalized
input or vice versa), the parser returns the first qualifying key in gazetteer
iteration order — first-match-wins — with confidence `partial`, `name` the
matched key and the `match` field recorded. -/
theorem parseLocationInput_partial_first_match :
    ∀ (s : String) (r1 r2 : ℚ) (k : String) (e : LocEntry)
      (l1 l2 : List (String × LocEntry)),
      jsTrim s ≠ "" →
      lookupDb (jsTrim (jsToLower s)) = none →
      locationDatabase = l1 ++ (k, e) :: l2 →
      (∀ p ∈ l1, qualifiesKey (jsTrim (jsToLower s)) p.1 = false) →
      qualifiesKey (jsTrim (jsToLower s)) k = true →
      parseLocationInput s r1 r2 = some ⟨e.lat, e.lng, k, e.type, "partial", some k⟩ := by
  intro s r1 r2 k e l1 l2 hg hl hdb h1 hk
  apply parse_eq_partialStage s r1 r2 k e hg hl
  rw [hdb, List.filter_append]
  have hf1 : l1.filter (fun p => qualifiesKey (jsTrim (jsToLower s)) p.1) = [] :=
    List.filter_eq_nil_iff.mpr fun p hp => by simp [h1 p hp]
  rw [hf1]
  simp [List.filter_cons, hk]

/-- C2 witness: `"Downtown Pl"` matches no key exactly; the first qualifying
key in iteration order is `downtown plaza`. -/
theorem parseLocationInput_partial_first_match_witness :
    jsTrim "Downtown Pl" ≠ "" ∧
    lookupDb (jsTrim (jsToLower "Downtown Pl")) = none ∧
    qualifiesKey (jsTrim (jsToLower "Downtown Pl")) "downtown plaza" = true ∧
    parseLocationInput "Downtown Pl" 0 0 =
      some ⟨3, 3, "downtown plaza", "business", "partial", some "downtown plaza"⟩ :=
  ⟨by decide, by decide, by decide,
   parseLocationInput_partial_first_match "Downtown Pl" 0 0 "downtown plaza"
     ⟨3, 3, "business"⟩ [] locationDatabase.tail
     (by decide) (by decide) rfl (by decide) (by decide)⟩

/-- Branch reduction: past the exact and partial stages with a successful
coordinate extraction, the parser is the bounds-checked coordinate result or
the estimated fallback. -/
theorem parse_eq_coordFound (s : String) (r1 r2 : ℚ) (s1 s2 : String)
    (hg : jsTrim s ≠ "")
    (hl : lookupDb (jsTrim (jsToLower s)) = none)
    (hh : (locationDatabase.filter fun p =>
            qualifiesKey (jsTrim (jsToLower s)) p.1).head? = none)
    (hc : findCoord s.data = some (s1, s2)) :
    parseLocationInput s r1 r2 =
      if 0 ≤ parseFloatQ s1 ∧ parseFloatQ s1 ≤ 20 ∧
          0 ≤ parseFloatQ s2 ∧ parseFloatQ s2 ≤ 15 then
        some ⟨parseFloatQ s1, parseFloatQ s2, jsTrim s, "custom", "coordinates", none⟩
      else
        some ⟨r1 * 20, r2 * 15, jsTrim s, "unknown", "estimated", none⟩ := by
  rw [parse_eq_coordTail s r1 r2 hg hl hh, hc]

/-- C4: with no exact or partial gazetteer match, a successful extraction of
two comma-separated decimal numbers from the original text yields confidence
`coordinates` with exactly those values, `name` = original trimmed input and
category `custom` when both are in bounds (lat ∈ [0,20], lng ∈ [0,15]);
an out-of-bounds pair instead falls through to confidence `estimated` with a
synthesized point inside [0,20] × [0,15]. -/
theorem parseLocationInput_coordinate_branch :
    ∀ (s : String) (r1 r2 : ℚ) (s1 s2 : String),
      jsTrim s ≠ "" →
      lookupDb (jsTrim (jsToLower s)) = none →
      (∀ p ∈ locationDatabase, qualifiesKey (jsTrim (jsToLower s)) p.1 = false) →
      findCoord s.data = some (s1, s2) →
      0 ≤ r1 → r1 < 1 → 0 ≤ r2 → r2 < 1 →
      ((0 ≤ parseFloatQ s1 ∧ parseFloatQ s1 ≤ 20 ∧
          0 ≤ parseFloatQ s2 ∧ parseFloatQ s2 ≤ 15) →
        parseLocationInput s r1 r2 =
          some ⟨parseFloatQ s1, parseFloatQ s2, jsTrim s, "custom", "coordinates", none⟩) ∧
      (¬ (0 ≤ parseFloatQ s1 ∧ parseFloatQ s1 ≤ 20 ∧
          0 ≤ parseFloatQ s2 ∧ parseFloatQ s2 ≤ 15) →
        parseLocationInput s r1 r2 =
          some ⟨r1 * 20, r2 * 15, jsTrim s, "unknown", "estimated", none⟩ ∧
        0 ≤ r1 * 20 ∧ r1 * 20 ≤ 20 ∧ 0 ≤ r2 * 15 ∧ r2 * 15 ≤ 15) := by
  intro s r1 r2 s1 s2 hg hl hq hc hr1 hr1' hr2 hr2'
  have hh : (locationDatabase.filter fun p =>
      qualifiesKey (jsTrim (jsToLower s)) p.1).head? = none := by
    rw [List.filter_eq_nil_iff.mpr fun p hp => by simp [hq p hp]]
    rfl
  have h := parse_eq_coordFound s r1 r2 s1 s2 hg hl hh hc
  constructor
  · intro hb
    rw [h, if_pos hb]
  · intro hb
    refine ⟨by rw [h, if_neg hb], ?_, ?_, ?_, ?_⟩
    · exact mul_nonneg hr1 (by norm_num)
    · nlinarith
    · exact mul_nonneg hr2 (by norm_num)
    · nlinarith

/-- C4 witness: `"3.5, 4.2"` yields confidence `coordinates` with
lat = 3.5, lng = 4.2; `"99, 99"` is out of bounds and falls through to
`estimated` with the synthesized in-bounds point. -/
theorem parseLocationInput_coordinate_branch_witness :
    findCoord ("3.5, 4.2" : String).data = some ("3.5", "4.2") ∧
    parseFloatQ "3.5" = 7/2 ∧ parseFloatQ "4.2" = 21/5 ∧
    parseLocationInput "3.5, 4.2" (1/2) (1/3) =
      some ⟨7/2, 21/5, "3.5, 4.2", "custom", "coordinates", none⟩ ∧
    findCoord ("99, 99" : String).data = some ("99", "99") ∧
    parseLocationInput "99, 99" (1/2) (1/3) =
      some ⟨(1 : ℚ)/2 * 20, (1 : ℚ)/3 * 15, "99, 99", "unknown", "estimated", none⟩ := by
  have h35 : parseFloatQ "3.5" = 7/2 := by
    show ((digitsVal ['3'] : ℚ) +
      (digitsVal ['5'] : ℚ) / (10 : ℚ) ^ (['5'] : List Char).length) = 7/2
    norm_num [show digitsVal ['3'] = 3 from by decide, show digitsVal ['5'] = 5 from by decide]
  have h42 : parseFloatQ "4.2" = 21/5 := by
    show ((digitsVal ['4'] : ℚ) +
      (digitsVal ['2'] : ℚ) / (10 : ℚ) ^ (['2'] : List Char).length) = 21/5
    norm_num [show digitsVal ['4'] = 4 from by decide, show digitsVal ['2'] = 2 from by decide]
  have h99 : parseFloatQ "99" = 99 := by decide
  have ha := (parseLocationInput_coordinate_branch "3.5, 4.2" (1/2) (1/3) "3.5" "4.2"
    (by decide) (by decide) (by decide) (by decide)
    (by norm_num) (by norm_num) (by norm_num) (by norm_num)).1
    (by rw [h35, h42]; norm_num)
  have hb := ((parseLocationInput_coordinate_branch "99, 99" (1/2) (1/3) "99" "99"
    (by decide) (by decide) (by decide) (by decide)
    (by norm_num) (by norm_num) (by norm_num) (by norm_num)).2
    (by rw [h99]; norm_num)).1
  refine ⟨by decide, h35, h42, ?_, by decide, ?_⟩
  · rw [ha, h35, h42, show jsTrim "3.5, 4.2" = "3.5, 4.2" from by decide]
  · rw [hb, show jsTrim "99, 99" = "99, 99" from by decide]

/-- C6: in every refresh cycle, whatever each unit's outcome, no unit's
failure escapes `refreshData` (the aggregate body returns normally), the
shared last-updated timestamp is still written after all units settle, and
every unit whose own fetch succeeded renders its panel normally. -/
theorem refreshData_fault_isolation :
    ∀ (o : CycleOutcomes) (d : DomState),
      refreshBody o d = Except.ok (refreshData o d) ∧
      (refreshData o d).lastUpdated = true ∧
      (o.systemStats = true →
        (refreshData o d).systemStatsPanel = PanelContent.rendered) ∧
      (o.parkingLots = true →
        (refreshData o d).parkingLotsPanel = PanelContent.rendered) ∧
      (o.recommendations = true →
        (refreshData o d).recommendationsPanel = PanelContent.rendered) ∧
      (o.junctions = true →
        (refreshData o d).junctionsPanel = PanelContent.rendered) ∧
      (o.predictions = true →
        (refreshData o d).predictionsPanel = PanelContent.rendered) ∧
      (o.mapData = true →
        (refreshData o d).mapPanel = PanelContent.rendered) := by
  intro o d
  obtain ⟨a, b, c, j, p, m⟩ := o
  cases a <;> cases b <;> cases c <;> cases j <;> cases p <;> cases m <;>
    exact ⟨rfl, rfl,
      fun h => by first | rfl | exact Bool.noConfusion h,
      fun h => by first | rfl | exact Bool.noConfusion h,
      fun h => by first | rfl | exact Bool.noConfusion h,
      fun h => by first | rfl | exact Bool.noConfusion h,
      fun h => by first | rfl | exact Bool.noConfusion h,
      fun h => by first | rfl | exact Bool.noConfusion h⟩

/-- C6 witness: a cycle in which only the parking-lots unit fails — the body
still returns normally, the timestamp updates and all other units render. -/
theorem refreshData_fault_isolation_witness :
    ((⟨true, false, true, true, true, true⟩ : CycleOutcomes).systemStats = true) ∧
    (refreshData ⟨true, false, true, true, true, true⟩ initialDomState).lastUpdated = true ∧
    (refreshData ⟨true, false, true, true, true, true⟩ initialDomState).systemStatsPanel =
      PanelContent.rendered ∧
    (refreshData ⟨true, false, true, true, true, true⟩ initialDomState).recommendationsPanel =
      PanelContent.rendered ∧
    (refreshData ⟨true, false, true, true, true, true⟩ initialDomState).junctionsPanel =
      PanelContent.rendered ∧
    (refreshData ⟨true, false, true, true, true, true⟩ initialDomState).predictionsPanel =
      PanelContent.rendered ∧
    (refreshData ⟨true, false, true, true, true, true⟩ initialDomState).mapPanel =
      PanelContent.rendered ∧
    refreshBody ⟨true, false, true, true, true, true⟩ initialDomState =
      Except.ok (refreshData ⟨true, false, true, true, true, true⟩ initialDomState) := by
  have h := refreshData_fault_isolation ⟨true, false, true, true, true, true⟩ initialDomState
  exact ⟨rfl, h.2.1, h.2.2.1 rfl, h.2.2.2.2.1 rfl, h.2.2.2.2.2.1 rfl,
    h.2.2.2.2.2.2.1 rfl, h.2.2.2.2.2.2.2 rfl, h.1⟩

/-- One loop iteration preserves the scan invariant. -/
theorem scanStep_inv (lat lng : ℚ) (processed : List (String × LocEntry))
    (acc : Option ((String × LocEntry) × ℚ)) (p : String × LocEntry)
    (h : ScanInv lat lng processed acc) :
    ScanInv lat lng (processed ++ [p]) (scanStep lat lng acc p) := by
  cases acc with
  | none =>
    have hp : processed = [] := h
    subst hp
    exact ⟨rfl, [], [], rfl,
      fun q hq => absurd hq (List.not_mem_nil q),
      fun q hq => absurd hq (List.not_mem_nil q)⟩
  | some bpair =>
    obtain ⟨b, bd⟩ := bpair
    obtain ⟨hbd, l1, l2, hsplit, hl1, hl2⟩ := h
    by_cases hlt : distSq p.2 lat lng < bd
    · simp only [scanStep, if_pos hlt]
      refine ⟨rfl, processed, [], by simp, ?_, fun q hq => absurd hq (List.not_mem_nil q)⟩
      intro q hq
      rw [hsplit] at hq
      rcases List.mem_append.mp hq with hmem | hmem
      · exact lt_trans hlt (hl1 q hmem)
      · rcases List.mem_cons.mp hmem with hmem | hmem
        · subst hmem
          rw [← hbd]
          exact hlt
        · exact lt_of_lt_of_le hlt (hl2 q hmem)
    · simp only [scanStep, if_neg hlt]
      refine ⟨hbd, l1, l2 ++ [p], by rw [hsplit]; simp, hl1, ?_⟩
      intro q hq
      rcases List.mem_append.mp hq with hmem | hmem
      · exact hl2 q hmem
      · rw [List.mem_singleton] at hmem
        subst hmem
        exact le_of_not_lt hlt

/-- Folding the scan step over any suffix preserves the invariant. -/
theorem foldl_scan_inv (lat lng : ℚ) :
    ∀ (rest processed : List (String × LocEntry)) (acc : Option ((String × LocEntry) × ℚ)),
      ScanInv lat lng processed acc →
      ScanInv lat lng (processed ++ rest) (rest.foldl (scanStep lat lng) acc) := by
  intro rest
  induction rest with
  | nil =>
    intro processed acc h
    simpa using h
  | cons p rest ih =>
    intro processed acc h
    rw [List.foldl_cons]
    have h3 := ih (processed ++ [p]) (scanStep lat lng acc p)
      (scanStep_inv lat lng processed acc p h)
    rw [List.append_assoc] at h3
    simpa using h3

/-- C8: for every query point, `findNearestLocation` returns the gazetteer
entry minimizing the Euclidean distance `sqrt(Δlat² + Δlng²)`, with ties
broken by gazetteer iteration order — the first minimum encountered is kept
(everything before the returned entry is strictly farther, via the strict `<`
comparison); on an empty gazetteer it returns the synthetic
`"Custom Location"` entry at the query point, so it never fails. -/
theorem findNearestLocation_spec :
    (∀ lat lng : ℚ, findNearestLocation [] lat lng = ⟨"Custom Location", lat, lng, none⟩) ∧
    (∀ (db : List (String × LocEntry)) (lat lng : ℚ), db ≠ [] →
      ∃ k e l1 l2,
        db = l1 ++ (k, e) :: l2 ∧
        findNearestLocation db lat lng = ⟨k, e.lat, e.lng, some e.type⟩ ∧
        (∀ q ∈ l1, Real.sqrt ((distSq e lat lng : ℚ) : ℝ) <
          Real.sqrt ((distSq q.2 lat lng : ℚ) : ℝ)) ∧
        (∀ q ∈ db, Real.sqrt ((distSq e lat lng : ℚ) : ℝ) ≤
          Real.sqrt ((distSq q.2 lat lng : ℚ) : ℝ))) := by
  constructor
  · intro lat lng
    rfl
  · intro db lat lng hne
    have hinv : ScanInv lat lng db (nearestScan lat lng db) := by
      have h0 : ScanInv lat lng [] none := rfl
      have := foldl_scan_inv lat lng db [] none h0
      simpa [nearestScan] using this
    cases hscan : nearestScan lat lng db with
    | none =>
      rw [hscan] at hinv
      exact absurd hinv hne
    | some bpair =>
      obtain ⟨⟨k, e⟩, bd⟩ := bpair
      rw [hscan] at hinv
      obtain ⟨hbd, l1, l2, hsplit, hl1, hl2⟩ := hinv
      have hd0 : (0 : ℚ) ≤ distSq e lat lng :=
        add_nonneg (sq_nonneg _) (sq_nonneg _)
      refine ⟨k, e, l1, l2, hsplit, ?_, ?_, ?_⟩
      · unfold findNearestLocation
        rw [hscan]
      · intro q hq
        have h1 : distSq e lat lng < distSq q.2 lat lng := by
          have hx := hl1 q hq
          rw [hbd] at hx
          exact hx
        apply Real.sqrt_lt_sqrt
        · exact_mod_cast hd0
        · exact_mod_cast h1
      · intro q hq
        have h1 : distSq e lat lng ≤ distSq q.2 lat lng := by
          rw [hsplit] at hq
          rcases List.mem_append.mp hq with hmem | hmem
          · have hx := hl1 q hmem
            rw [hbd] at hx
            exact le_of_lt hx
          · rcases List.mem_cons.mp hmem with hmem | hmem
            · subst hmem
              exact le_refl _
            · have hx := hl2 q hmem
              rw [hbd] at hx
              exact hx
        apply Real.sqrt_le_sqrt
        exact_mod_cast h1

/-- C8 witness: on the actual gazetteer and the query point (0, 0) the scan
returns a first minimum with the stated properties. -/
theorem findNearestLocation_spec_witness :
    locationDatabase ≠ [] ∧
    (∃ k e l1 l2,
      locationDatabase = l1 ++ (k, e) :: l2 ∧
      findNearestLocation locationDatabase 0 0 = ⟨k, e.lat, e.lng, some e.type⟩ ∧
      (∀ q ∈ l1, Real.sqrt ((distSq e 0 0 : ℚ) : ℝ) <
        Real.sqrt ((distSq q.2 0 0 : ℚ) : ℝ)) ∧
      (∀ q ∈ locationDatabase, Real.sqrt ((distSq e 0 0 : ℚ) : ℝ) ≤
        Real.sqrt ((distSq q.2 0 0 : ℚ) : ℝ))) :=
  ⟨by decide, findNearestLocation_spec.2 locationDatabase 0 0 (by decide)⟩
